import Mathlib

/-!
# Boot-Monitoring: verification of the scheduling / device-control slice

Shallow embedding of the schedule evaluators, the schedule store, the
activation log, the device driver wrappers and the daemon reconciliation
tick of the Boot-Monitoring repository, with theorems settling the frozen
claims about them.

Source files embedded:
* `schedule_daemon.py` (`ScheduleDaemon.is_today_scheduled`,
  `should_light_be_on`, `check_and_update_relay`, `get_schedule`),
* `app/controllers/revpi_controller.py` (`RevPiController.check_schedule`),
* `app/models/__init__.py` (`Schedule.save_schedule`,
  `RelayActivation.get_activations`),
* `app/services/revpi_service.py` (`RevPiService.get_device_status`,
  `_get_status_with_process_control`, `toggle_device`),
* `app/services/schedule_service.py` (`ScheduleService.save_schedule`)
  together with the validators of `app/utils/service_response.py`.
-/

set_option maxRecDepth 4000

namespace BootMonitoring

/-! ## Wall-clock times

Python `datetime.time(h, m)` values compare lexicographically on
`(hour, minute, second, microsecond)`.  The schedule times always have
zero seconds/microseconds, and comparing a live `datetime.now().time()`
against such a value reduces exactly to the lexicographic comparison of
the `(hour, minute)` pairs, so minute granularity is a faithful model. -/

structure ClockTime where
  hour : Nat
  minute : Nat
deriving DecidableEq, Repr

/-- `a < b` for `datetime.time` values (lexicographic on hour, minute). -/
def ClockTime.lt (a b : ClockTime) : Bool :=
  a.hour < b.hour || (a.hour == b.hour && a.minute < b.minute)

/-- `a <= b` for `datetime.time` values (lexicographic on hour, minute). -/
def ClockTime.le (a b : ClockTime) : Bool :=
  a.hour < b.hour || (a.hour == b.hour && a.minute <= b.minute)

/-! ## Weekdays -/

/-- The `day_map` dictionary shared by `ScheduleDaemon.is_today_scheduled`
and `RevPiController.check_schedule`, including the `.get(today, '')`
default for indexes outside 0..6. -/
def dayMap : Nat → String
  | 0 => "mon" | 1 => "tue" | 2 => "wed" | 3 => "thu"
  | 4 => "fri" | 5 => "sat" | 6 => "sun"
  | _ => ""

/-! ## Schedule records

A schedule as both evaluators see it after the row has been fetched and
its day list materialised: the `enabled` flag, the day abbreviations and
the two `HH:MM` times already split into hour/minute (both evaluators do
`map(int, t.split(':'))` on table columns that store `HH:MM` text). -/

structure ScheduleRec where
  enabled : Bool
  days : List String
  start_time : ClockTime
  end_time : ClockTime
deriving DecidableEq, Repr

/-! ## The daemon's evaluator (`schedule_daemon.py`) -/

/-- `ScheduleDaemon.is_today_scheduled`: an empty day list means "run
every day"; otherwise membership of today's abbreviation. -/
def is_today_scheduled (schedule_days : List String) (today : Nat) : Bool :=
  if schedule_days.isEmpty then
    true
  else
    schedule_days.contains (dayMap today)

/-- `ScheduleDaemon.should_light_be_on`: `False` for an absent or
disabled schedule or a non-scheduled day; otherwise the daytime branch
when `start_time <= end_time` and the overnight branch when
`start_time > end_time`. -/
def should_light_be_on (sched : Option ScheduleRec) (today : Nat)
    (now : ClockTime) : Bool :=
  match sched with
  | none => false
  | some s =>
    if !s.enabled then false
    else if !is_today_scheduled s.days today then false
    else if ClockTime.le s.start_time s.end_time then
      ClockTime.le s.start_time now && ClockTime.lt now s.end_time
    else
      ClockTime.le s.start_time now || ClockTime.lt now s.end_time

/-! ## The endpoint's evaluator (`RevPiController.check_schedule`) -/

/-- The time test of `check_schedule` (its `should_be_on` local): the
daytime branch when `on_time < off_time`, the overnight branch when
`on_time >= off_time`. -/
def endpoint_should_be_on (s : ScheduleRec) (now : ClockTime) : Bool :=
  if ClockTime.lt s.start_time s.end_time then
    ClockTime.le s.start_time now && ClockTime.lt now s.end_time
  else
    ClockTime.le s.start_time now || ClockTime.lt now s.end_time

/-- The result tag of the `/revpi-schedule/check` endpoint. -/
inductive ScheduleCheckAction where
  | actionNone
  | turnedOn
  | turnedOff
  | actionFailed
deriving DecidableEq, Repr

/-- `RevPiController.check_schedule` after the schedule fetch: the
enabled guard, the day guard (`if scheduled_days and today_abbr not in
scheduled_days`), the time test, the comparison against the currently
observed status string and the toggle attempt (`toggleOk` is the
`success` flag of `toggle_device`). -/
def check_schedule (sched : Option ScheduleRec) (today : Nat)
    (now : ClockTime) (currentStatus : String) (toggleOk : Bool) :
    ScheduleCheckAction :=
  match sched with
  | none => .actionNone
  | some s =>
    if !s.enabled then .actionNone
    else if !s.days.isEmpty && !s.days.contains (dayMap today) then
      .actionNone
    else
      let shouldBeOn := endpoint_should_be_on s now
      let isCurrentlyOn := currentStatus == "ON"
      if shouldBeOn && !isCurrentlyOn then
        if toggleOk then .turnedOn else .actionFailed
      else if !shouldBeOn && isCurrentlyOn then
        if toggleOk then .turnedOff else .actionFailed
      else .actionNone

/-! ## Order facts about `ClockTime` -/

theorem ClockTime.lt_iff (a b : ClockTime) :
    ClockTime.lt a b = true ↔
      (a.hour < b.hour ∨ (a.hour = b.hour ∧ a.minute < b.minute)) := by
  simp [ClockTime.lt]

theorem ClockTime.le_iff (a b : ClockTime) :
    ClockTime.le a b = true ↔
      (a.hour < b.hour ∨ (a.hour = b.hour ∧ a.minute ≤ b.minute)) := by
  simp [ClockTime.le]

theorem ClockTime.lt_irrefl (a : ClockTime) : ClockTime.lt a a = false := by
  simp [ClockTime.lt]

theorem ClockTime.le_refl (a : ClockTime) : ClockTime.le a a = true := by
  simp [ClockTime.le]

theorem ClockTime.le_total_of_not (a b : ClockTime)
    (h : ClockTime.le a b = false) : ClockTime.lt b a = true := by
  rw [ClockTime.lt_iff]
  rw [← Bool.not_eq_true, ClockTime.le_iff] at h
  omega

theorem ClockTime.le_of_lt (a b : ClockTime)
    (h : ClockTime.lt a b = true) : ClockTime.le a b = true := by
  rw [ClockTime.le_iff]
  rw [ClockTime.lt_iff] at h
  omega

theorem ClockTime.not_le_of_lt (a b : ClockTime)
    (h : ClockTime.lt b a = true) : ClockTime.le a b = false := by
  rw [← Bool.not_eq_true, ClockTime.le_iff]
  rw [ClockTime.lt_iff] at h
  omega

theorem ClockTime.not_and_le_lt_self (e now : ClockTime) :
    (ClockTime.le e now && ClockTime.lt now e) = false := by
  rw [← Bool.not_eq_true, Bool.and_eq_true, ClockTime.le_iff, ClockTime.lt_iff]
  omega

theorem ClockTime.or_le_lt_self (e now : ClockTime) :
    (ClockTime.le e now || ClockTime.lt now e) = true := by
  rw [Bool.or_eq_true, ClockTime.le_iff, ClockTime.lt_iff]
  omega

/-- The endpoint's day guard is exactly the negation of the daemon's
`is_today_scheduled`. -/
theorem day_guard_eq_not_is_today_scheduled (days : List String) (today : Nat) :
    (!days.isEmpty && !days.contains (dayMap today)) =
      !is_today_scheduled days today := by
  unfold is_today_scheduled
  cases h : days.isEmpty <;> simp [h]

/-! ## Claim C1: behaviour at `start_time == end_time` -/

/-- C1 counterexample: for the enabled schedule `12:00-12:00` active on
Mondays, at Monday `12:00` the daemon's `should_light_be_on` returns
`false`, so the claim that both evaluators return "on" for every time of
day when `start_time == end_time` is false: the daemon takes the daytime
branch (`start_time <= end_time`) and is always off. -/
theorem C1_counterexample :
    should_light_be_on
      (some { enabled := true, days := ["mon"],
              start_time := ⟨12, 0⟩, end_time := ⟨12, 0⟩ })
      0 ⟨12, 0⟩ = false := by decide

/-- C1 (amended): for an enabled schedule with today scheduled and
`start_time = end_time`, the endpoint's time test returns "on" for every
current time (it collapses into the overnight branch), while the daemon's
`should_light_be_on` returns "off" for every current time (its branch
condition is `start_time <= end_time`, so equality falls into the daytime
branch whose window is empty). -/
theorem C1_start_eq_end (s : ScheduleRec) (today : Nat) (now : ClockTime)
    (hen : s.enabled = true)
    (hday : is_today_scheduled s.days today = true)
    (heq : s.start_time = s.end_time) :
    endpoint_should_be_on s now = true ∧
    should_light_be_on (some s) today now = false := by
  constructor
  · unfold endpoint_should_be_on
    rw [heq, ClockTime.lt_irrefl]
    simpa using ClockTime.or_le_lt_self s.end_time now
  · simp only [should_light_be_on, hen, hday, heq, ClockTime.le_refl,
      Bool.not_true, Bool.false_eq_true, if_false, if_true]
    simpa using ClockTime.not_and_le_lt_self s.end_time now

theorem C1_start_eq_end_witness :
    endpoint_should_be_on
      { enabled := true, days := ["mon"],
        start_time := ⟨12, 0⟩, end_time := ⟨12, 0⟩ } ⟨3, 30⟩ = true ∧
    should_light_be_on
      (some { enabled := true, days := ["mon"],
              start_time := ⟨12, 0⟩, end_time := ⟨12, 0⟩ })
      0 ⟨3, 30⟩ = false :=
  C1_start_eq_end _ 0 ⟨3, 30⟩ (by decide) (by decide) (by decide)

/-! ## Claim C2: empty day set at the two call sites -/

/-- C2 counterexample: with an empty stored day set the endpoint does
NOT return action `none` — for the enabled schedule `08:00-17:00` with
`days = []`, on a Monday at `09:00` with the relay observed OFF and a
succeeding toggle it returns `turned_on`.  Its guard is
`if scheduled_days and today_abbr not in scheduled_days`, and an empty
list is falsy, so the endpoint — like the daemon — treats the empty day
set as "matches every day"; the claimed divergence does not exist in the
code. -/
theorem C2_counterexample :
    check_schedule
      (some { enabled := true, days := [],
              start_time := ⟨8, 0⟩, end_time := ⟨17, 0⟩ })
      0 ⟨9, 0⟩ "OFF" true = ScheduleCheckAction.turnedOn := by decide

/-- C2 (amended): the two call sites agree on the empty day set, both
treating it as "matches every day": the daemon's `is_today_scheduled`
returns `true` for every weekday, and the endpoint's day guard never
fires — for an enabled schedule with empty days, `check_schedule`
returns `none` exactly when the device is already in the state the time
test asks for (it proceeds to the time check instead of bailing out). -/
theorem C2_empty_days (s : ScheduleRec) (today : Nat) (now : ClockTime)
    (st : String) (tok : Bool)
    (hdays : s.days = []) (hen : s.enabled = true) :
    is_today_scheduled s.days today = true ∧
    (check_schedule (some s) today now st tok = ScheduleCheckAction.actionNone ↔
      endpoint_should_be_on s now = (st == "ON")) := by
  refine ⟨by simp [is_today_scheduled, hdays], ?_⟩
  simp only [check_schedule, hen, hdays, List.isEmpty_nil, Bool.not_true,
    Bool.false_and, Bool.false_eq_true, if_false, if_true]
  cases h1 : endpoint_should_be_on s now <;> cases h2 : (st == "ON") <;>
    cases tok <;> simp

theorem C2_empty_days_witness :
    is_today_scheduled ([] : List String) 3 = true ∧
    (check_schedule
        (some { enabled := true, days := [],
                start_time := ⟨8, 0⟩, end_time := ⟨17, 0⟩ })
        3 ⟨9, 0⟩ "ON" true = ScheduleCheckAction.actionNone ↔
      endpoint_should_be_on
        { enabled := true, days := [],
          start_time := ⟨8, 0⟩, end_time := ⟨17, 0⟩ } ⟨9, 0⟩ = ("ON" == "ON")) :=
  C2_empty_days
    { enabled := true, days := [], start_time := ⟨8, 0⟩, end_time := ⟨17, 0⟩ }
    3 ⟨9, 0⟩ "ON" true (by decide) (by decide)

/-! ## Claim C4: the daytime and overnight windows -/

/-- C4: for an enabled schedule whose day set matches today, with
`start_time < end_time` both evaluators return "on" exactly when
`start_time ≤ now < end_time` (so "off" exactly at `now = end_time`),
and with `start_time > end_time` both return "on" exactly when
`now ≥ start_time` or `now < end_time`, covering the midnight
wraparound. -/
theorem C4_window (s : ScheduleRec) (today : Nat) (now : ClockTime)
    (hen : s.enabled = true)
    (hday : is_today_scheduled s.days today = true) :
    (ClockTime.lt s.start_time s.end_time = true →
      (should_light_be_on (some s) today now = true ↔
        (ClockTime.le s.start_time now = true ∧
         ClockTime.lt now s.end_time = true)) ∧
      (endpoint_should_be_on s now = true ↔
        (ClockTime.le s.start_time now = true ∧
         ClockTime.lt now s.end_time = true))) ∧
    (ClockTime.lt s.end_time s.start_time = true →
      (should_light_be_on (some s) today now = true ↔
        (ClockTime.le s.start_time now = true ∨
         ClockTime.lt now s.end_time = true)) ∧
      (endpoint_should_be_on s now = true ↔
        (ClockTime.le s.start_time now = true ∨
         ClockTime.lt now s.end_time = true))) := by
  constructor
  · intro hlt
    have hle := ClockTime.le_of_lt _ _ hlt
    constructor
    · simp [should_light_be_on, hen, hday, hle]
    · simp [endpoint_should_be_on, hlt]
  · intro hgt
    have hnle := ClockTime.not_le_of_lt _ _ hgt
    have hnlt : ClockTime.lt s.start_time s.end_time = false := by
      rcases h : ClockTime.lt s.start_time s.end_time with _ | _
      · rfl
      · rw [ClockTime.lt_iff] at h hgt
        omega
    constructor
    · simp [should_light_be_on, hen, hday, hnle]
    · simp [endpoint_should_be_on, hnlt]

theorem C4_window_witness :
    ((ClockTime.lt (⟨8, 0⟩ : ClockTime) ⟨17, 0⟩ = true →
      (should_light_be_on
          (some { enabled := true, days := ["mon"],
                  start_time := ⟨8, 0⟩, end_time := ⟨17, 0⟩ })
          0 ⟨17, 0⟩ = true ↔
        (ClockTime.le ⟨8, 0⟩ ⟨17, 0⟩ = true ∧
         ClockTime.lt (⟨17, 0⟩ : ClockTime) ⟨17, 0⟩ = true)) ∧
      (endpoint_should_be_on
          { enabled := true, days := ["mon"],
            start_time := ⟨8, 0⟩, end_time := ⟨17, 0⟩ } ⟨17, 0⟩ = true ↔
        (ClockTime.le ⟨8, 0⟩ ⟨17, 0⟩ = true ∧
         ClockTime.lt (⟨17, 0⟩ : ClockTime) ⟨17, 0⟩ = true))) ∧
     (ClockTime.lt (⟨17, 0⟩ : ClockTime) ⟨8, 0⟩ = true →
      (should_light_be_on
          (some { enabled := true, days := ["mon"],
                  start_time := ⟨8, 0⟩, end_time := ⟨17, 0⟩ })
          0 ⟨17, 0⟩ = true ↔
        (ClockTime.le ⟨8, 0⟩ ⟨17, 0⟩ = true ∨
         ClockTime.lt (⟨17, 0⟩ : ClockTime) ⟨17, 0⟩ = true)) ∧
      (endpoint_should_be_on
          { enabled := true, days := ["mon"],
            start_time := ⟨8, 0⟩, end_time := ⟨17, 0⟩ } ⟨17, 0⟩ = true ↔
        (ClockTime.le ⟨8, 0⟩ ⟨17, 0⟩ = true ∨
         ClockTime.lt (⟨17, 0⟩ : ClockTime) ⟨17, 0⟩ = true)))) :=
  C4_window { enabled := true, days := ["mon"],
              start_time := ⟨8, 0⟩, end_time := ⟨17, 0⟩ }
    0 ⟨17, 0⟩ (by decide) (by decide)

/-! ## The relational store (`app/models/__init__.py`)

Rows of the tables created by `Database.init_database`
(`device_schedules`, `schedule_days`, `relay_activations`) plus the
separate `schedules` table that `ScheduleDaemon.get_schedule` queries.
The audit columns `created_at`/`updated_at` (set to `CURRENT_TIMESTAMP`
by SQL, never read by the embedded operations) are omitted. -/

structure DeviceScheduleRow where
  id : Nat
  device_id : String
  start_time : String
  end_time : String
  enabled : Bool
  user_id : Option Nat
deriving DecidableEq, Repr

structure ScheduleDayRow where
  schedule_id : Nat
  day_of_week : String
deriving DecidableEq, Repr

/-- A row of the `schedules` table read by the daemon's SQL
(`SELECT ... FROM schedules WHERE device_id = 'RelayLight'`); its `days`
column is comma-separated text. -/
structure SchedulesRow where
  device_id : String
  start_time : String
  end_time : String
  days : String
  enabled : Bool
deriving DecidableEq, Repr

structure ActivationRow where
  device_id : String
  action : String
  user_id : Option Nat
  username : Option String
  is_automatic : Bool
  success : Bool
  timestamp : String
deriving DecidableEq, Repr

/-- The SQLite file shared by the web app and the daemon.
`nextScheduleId` models the `AUTOINCREMENT` id counter of
`device_schedules` (fresh: strictly larger than every used id). -/
structure DbState where
  schedules : List SchedulesRow
  device_schedules : List DeviceScheduleRow
  schedule_days : List ScheduleDayRow
  relay_activations : List ActivationRow
  nextScheduleId : Nat
deriving Repr

/-- `Schedule.save_schedule`: select the (first) `device_schedules` row
for the device; if present, update its fields in place and replace its
day rows (`DELETE FROM schedule_days WHERE schedule_id = ?` then
re-insert); otherwise insert a fresh row and its day rows.  All inside
one committed transaction, so the whole step is one state update. -/
def Schedule.save_schedule (db : DbState) (device_id start_time end_time : String)
    (days : List String) (enabled : Bool) (user_id : Option Nat) : DbState :=
  match db.device_schedules.find? (fun r => r.device_id == device_id) with
  | some existing =>
    { db with
      device_schedules := db.device_schedules.map (fun r =>
        if r.id == existing.id then
          { r with start_time := start_time, end_time := end_time,
                   enabled := enabled, user_id := user_id }
        else r),
      schedule_days :=
        (db.schedule_days.filter (fun d => !(d.schedule_id == existing.id))) ++
          days.map (fun day => ⟨existing.id, day⟩) }
  | none =>
    { db with
      device_schedules := db.device_schedules ++
        [⟨db.nextScheduleId, device_id, start_time, end_time, enabled, user_id⟩],
      schedule_days := db.schedule_days ++
        days.map (fun day => ⟨db.nextScheduleId, day⟩),
      nextScheduleId := db.nextScheduleId + 1 }

/-- `ScheduleDaemon.get_schedule`: `fetchone` of the rows of the
`schedules` table whose `device_id` is `'RelayLight'`. -/
def daemon_get_schedule (db : DbState) : Option SchedulesRow :=
  db.schedules.find? (fun r => r.device_id == "RelayLight")

/-- The `device_schedules` rows for a given device. -/
def rowsFor (db : DbState) (d : String) : List DeviceScheduleRow :=
  db.device_schedules.filter (fun r => r.device_id == d)

/-- The day set attached to schedule id `i`. -/
def daysFor (db : DbState) (i : Nat) : List String :=
  (db.schedule_days.filter (fun r => r.schedule_id == i)).map
    (fun r => r.day_of_week)

/-! ## Claim C3: web saves never touch the daemon's table -/

/-- C3: `Schedule.save_schedule` writes only `device_schedules` and
`schedule_days`, while the daemon's `get_schedule` reads only the table
named `schedules`, so a save through the web store never changes the
result of a subsequent daemon fetch. -/
theorem C3_save_frame (db : DbState) (d st et : String) (days : List String)
    (en : Bool) (u : Option Nat) :
    daemon_get_schedule (Schedule.save_schedule db d st et days en u) =
      daemon_get_schedule db := by
  unfold daemon_get_schedule Schedule.save_schedule
  cases db.device_schedules.find? (fun r => r.device_id == d) <;> rfl

/-! ## Claim C5: saving twice is an upsert -/

theorem find_eq_filter_head {α : Type} (p : α → Bool) (l : List α) :
    l.find? p = (l.filter p).head? := by
  induction l with
  | nil => rfl
  | cons a t ih =>
    cases h : p a
    · rw [List.find?_cons_of_neg _ (by simp [h]),
        List.filter_cons_of_neg (by simp [h]), ih]
    · rw [List.find?_cons_of_pos _ (by simp [h]),
        List.filter_cons_of_pos (by simp [h])]
      rfl

/-- A fresh save for a device with no existing row inserts exactly one
row for it, carrying the saved fields and the fresh id. -/
theorem save_insert_rowsFor (db : DbState) (d st et : String)
    (days : List String) (en : Bool) (u : Option Nat)
    (h : rowsFor db d = []) :
    rowsFor (Schedule.save_schedule db d st et days en u) d =
      [⟨db.nextScheduleId, d, st, et, en, u⟩] ∧
    (Schedule.save_schedule db d st et days en u).nextScheduleId =
      db.nextScheduleId + 1 := by
  have hfind : db.device_schedules.find? (fun r => r.device_id == d) = none := by
    rw [find_eq_filter_head]
    rw [rowsFor] at h
    rw [h]
    rfl
  unfold rowsFor Schedule.save_schedule
  rw [hfind]
  refine ⟨?_, rfl⟩
  rw [List.filter_append]
  rw [rowsFor] at h
  rw [h]
  simp only [List.nil_append, List.filter_cons, List.filter_nil,
    beq_self_eq_true, if_true]

/-- A save for a device whose only row is `r0` rewrites that row's
fields in place (keeping its id) and replaces its day set wholesale. -/
theorem save_update_rowsFor (db : DbState) (d st et : String)
    (days : List String) (en : Bool) (u : Option Nat)
    (r0 : DeviceScheduleRow) (h : rowsFor db d = [r0]) :
    rowsFor (Schedule.save_schedule db d st et days en u) d =
      [⟨r0.id, d, st, et, en, u⟩] ∧
    daysFor (Schedule.save_schedule db d st et days en u) r0.id = days ∧
    (Schedule.save_schedule db d st et days en u).nextScheduleId =
      db.nextScheduleId := by
  have hfind : db.device_schedules.find? (fun r => r.device_id == d) = some r0 := by
    rw [find_eq_filter_head]
    rw [rowsFor] at h
    rw [h]
    rfl
  have hdev : r0.device_id = d := by
    have hmem : r0 ∈ db.device_schedules.filter (fun r => r.device_id == d) := by
      rw [rowsFor] at h
      rw [h]
      exact List.mem_singleton.mpr rfl
    have := (List.mem_filter.mp hmem).2
    simpa using this
  unfold rowsFor daysFor Schedule.save_schedule
  rw [hfind]
  refine ⟨?_, ?_, rfl⟩
  · rw [List.filter_map]
    have hcomp :
        ((fun r : DeviceScheduleRow => r.device_id == d) ∘ fun r =>
          if r.id == r0.id then
            { r with start_time := st, end_time := et,
                     enabled := en, user_id := u }
          else r) = fun r : DeviceScheduleRow => r.device_id == d := by
      funext r
      by_cases hr : r.id == r0.id <;> simp [Function.comp, hr]
    rw [hcomp]
    rw [rowsFor] at h
    rw [h]
    simp [hdev]
  · rw [List.filter_append, List.filter_filter]
    have h1 : (db.schedule_days.filter fun a =>
        (a.schedule_id == r0.id) && !(a.schedule_id == r0.id)) = [] := by
      rw [List.filter_eq_nil_iff]
      intro a _
      simp
    rw [h1, List.filter_map]
    have hcomp2 :
        ((fun r : ScheduleDayRow => r.schedule_id == r0.id) ∘ fun day =>
          (⟨r0.id, day⟩ : ScheduleDayRow)) = fun _ => true := by
      funext day
      simp [Function.comp]
    rw [hcomp2]
    simp only [List.filter_true, List.nil_append, List.map_map]
    have hcomp3 : ((fun r : ScheduleDayRow => r.day_of_week) ∘ fun day =>
        (⟨r0.id, day⟩ : ScheduleDayRow)) = id := by
      funext day
      rfl
    rw [hcomp3, List.map_id]

/-- C5: starting from a store satisfying the at-most-one-row-per-device
invariant, saving a schedule twice for the same device leaves exactly one
`device_schedules` row for that device, carrying the second save's
fields, and its day set is exactly the second save's days — nothing
survives from the first save. -/
theorem C5_save_twice (db : DbState) (d s1 e1 s2 e2 : String)
    (days1 days2 : List String) (en1 en2 : Bool) (u1 u2 : Option Nat)
    (h : (rowsFor db d).length ≤ 1) :
    ∃ i,
      rowsFor (Schedule.save_schedule
          (Schedule.save_schedule db d s1 e1 days1 en1 u1)
          d s2 e2 days2 en2 u2) d = [⟨i, d, s2, e2, en2, u2⟩] ∧
      daysFor (Schedule.save_schedule
          (Schedule.save_schedule db d s1 e1 days1 en1 u1)
          d s2 e2 days2 en2 u2) i = days2 := by
  rcases hl : rowsFor db d with _ | ⟨r0, t⟩
  · obtain ⟨h1, -⟩ := save_insert_rowsFor db d s1 e1 days1 en1 u1 hl
    obtain ⟨h2a, h2b, -⟩ := save_update_rowsFor _ d s2 e2 days2 en2 u2 _ h1
    exact ⟨db.nextScheduleId, h2a, h2b⟩
  · rcases t with _ | ⟨r1, t2⟩
    · obtain ⟨h1a, -, -⟩ := save_update_rowsFor db d s1 e1 days1 en1 u1 r0 hl
      obtain ⟨h2a, h2b, -⟩ := save_update_rowsFor _ d s2 e2 days2 en2 u2 _ h1a
      exact ⟨r0.id, h2a, h2b⟩
    · rw [hl] at h
      simp at h

theorem C5_save_twice_witness :
    (rowsFor
        { schedules := [], device_schedules := [], schedule_days := [],
          relay_activations := [], nextScheduleId := 1 } "RelayLight").length ≤ 1 ∧
    ∃ i,
      rowsFor (Schedule.save_schedule
          (Schedule.save_schedule
            { schedules := [], device_schedules := [], schedule_days := [],
              relay_activations := [], nextScheduleId := 1 }
            "RelayLight" "08:00" "17:00" ["mon", "tue"] true (some 7))
          "RelayLight" "09:00" "18:00" ["wed"] false none) "RelayLight" =
        [⟨i, "RelayLight", "09:00", "18:00", false, none⟩] ∧
      daysFor (Schedule.save_schedule
          (Schedule.save_schedule
            { schedules := [], device_schedules := [], schedule_days := [],
              relay_activations := [], nextScheduleId := 1 }
            "RelayLight" "08:00" "17:00" ["mon", "tue"] true (some 7))
          "RelayLight" "09:00" "18:00" ["wed"] false none) i = ["wed"] :=
  ⟨by decide,
    C5_save_twice
      { schedules := [], device_schedules := [], schedule_days := [],
        relay_activations := [], nextScheduleId := 1 }
      "RelayLight" "08:00" "17:00" "09:00" "18:00" ["mon", "tue"] ["wed"]
      true false (some 7) none (by decide)⟩

/-! ## Claim C7: the background poller's tick
(`ScheduleDaemon.check_and_update_relay`) -/

/-- The daemon's in-memory state across ticks: the last commanded relay
state (`None` initially and after a day rollover) and the last date a
tick ran on. -/
structure DaemonState where
  last_state : Option String
  last_check_date : Option Nat
deriving DecidableEq, Repr

/-- One tick's external inputs: the schedule row the daemon fetches, the
current date/weekday/time, and whether the toggle HTTP call succeeds. -/
structure TickEnv where
  schedule : Option ScheduleRec
  today_date : Nat
  today_weekday : Nat
  now : ClockTime
  toggle_ok : Bool

/-- The desired relay state a tick computes from the schedule. -/
def desired_state (sch : ScheduleRec) (env : TickEnv) : String :=
  if should_light_be_on (some sch) env.today_weekday env.now then "on" else "off"

/-- `ScheduleDaemon.check_and_update_relay`: one tick.  Returns the new
daemon state and the toggle command issued this tick (`none` when no
toggle was issued).  Mirrors the code: missing/disabled schedule turns
the light off only if the remembered state is `'on'`; otherwise the tick
computes the desired state, clears `last_state` on a date change, and
toggles exactly when the remembered state differs from the desired one,
recording the desired state only if the toggle call succeeded. -/
def check_and_update_relay (s : DaemonState) (env : TickEnv) :
    DaemonState × Option String :=
  match env.schedule with
  | none =>
    if s.last_state == some "on" then
      ({ s with last_state := some "off" }, some "off")
    else (s, none)
  | some sch =>
    if !sch.enabled then
      if s.last_state == some "on" then
        ({ s with last_state := some "off" }, some "off")
      else (s, none)
    else
      let desired := desired_state sch env
      let s1 : DaemonState :=
        if !(s.last_check_date == some env.today_date) then
          { last_state := none, last_check_date := some env.today_date }
        else s
      if !(s1.last_state == some desired) then
        if env.toggle_ok then
          ({ s1 with last_state := some desired }, some desired)
        else (s1, some desired)
      else (s1, none)

/-- C7: on a tick with an enabled schedule present, a toggle command is
issued exactly when the desired state differs from the last commanded
state — except that a date change (including the first tick) forces a
toggle even when they agree — and any issued command is the desired
state. -/
theorem C7_tick_toggle (s : DaemonState) (env : TickEnv) (sch : ScheduleRec)
    (hs : env.schedule = some sch) (hen : sch.enabled = true) :
    ((check_and_update_relay s env).2 ≠ none ↔
      (s.last_state ≠ some (desired_state sch env) ∨
       s.last_check_date ≠ some env.today_date)) ∧
    (∀ a, (check_and_update_relay s env).2 = some a →
      a = desired_state sch env) := by
  simp only [check_and_update_relay, hs, hen, Bool.not_true,
    Bool.false_eq_true, if_false]
  by_cases hd : s.last_check_date = some env.today_date
  · simp only [hd, beq_self_eq_true, Bool.not_true, Bool.false_eq_true,
      if_false, ne_eq, not_true_eq_false, or_false]
    by_cases hls : s.last_state = some (desired_state sch env)
    · simp [hls]
    · have : (s.last_state == some (desired_state sch env)) = false := by
        simpa using hls
      cases env.toggle_ok <;> simp [this, hls]
  · have hdb : (s.last_check_date == some env.today_date) = false := by
      simpa using hd
    have : ((none : Option String) == some (desired_state sch env)) = false := rfl
    cases env.toggle_ok <;> simp [hdb, this, hd]

/-- Concrete tick inputs used to witness `C7_tick_toggle`. -/
def tick_sched : ScheduleRec :=
  { enabled := true, days := [], start_time := ⟨8, 0⟩, end_time := ⟨17, 0⟩ }

def tick_env : TickEnv :=
  { schedule := some tick_sched, today_date := 100, today_weekday := 2,
    now := ⟨9, 0⟩, toggle_ok := true }

def tick_state : DaemonState :=
  { last_state := some "on", last_check_date := some 100 }

theorem C7_tick_toggle_witness :
    ((check_and_update_relay tick_state tick_env).2 ≠ none ↔
      (tick_state.last_state ≠ some (desired_state tick_sched tick_env) ∨
       tick_state.last_check_date ≠ some tick_env.today_date)) ∧
    (∀ a, (check_and_update_relay tick_state tick_env).2 = some a →
      a = desired_state tick_sched tick_env) :=
  C7_tick_toggle tick_state tick_env tick_sched rfl rfl

/-! ## Claim C8: validation in `ScheduleService.save_schedule`

(`app/services/schedule_service.py` with the validators of
`app/utils/service_response.py`.) -/

/-- Python `str.split(sep)` for a one-character separator, over the
character list of the string: every occurrence separates, empty parts
are kept, and the empty string yields `[""]`. -/
def py_split (sep : Char) : List Char → List (List Char)
  | [] => [[]]
  | c :: rest =>
    match py_split sep rest with
    | [] => [[]]
    | h :: t => if c == sep then [] :: h :: t else (c :: h) :: t

/-- ASCII whitespace as stripped by Python's `str.strip()` / `int()`. -/
def is_py_space (c : Char) : Bool :=
  c == ' ' || c == '\t' || c == '\n' || c == '\r' ||
  c == Char.ofNat 11 || c == Char.ofNat 12

/-- Python `str.strip()` (over the character list). -/
def py_strip (cs : List Char) : List Char :=
  ((cs.dropWhile is_py_space).reverse.dropWhile is_py_space).reverse

/-- The digits of a decimal literal, or `none` if any character is not
a digit (or the string is empty). -/
def py_digits (cs : List Char) : Option Nat :=
  if cs.isEmpty then none
  else if cs.all (fun c => c.isDigit) then
    some (cs.foldl (fun n c => 10 * n + (c.toNat - 48)) 0)
  else none

/-- Python's `int()` applied to the characters of a string: surrounding
whitespace is stripped and one optional sign is allowed; `none` models
`ValueError`. -/
def py_int_chars (cs : List Char) : Option Int :=
  match py_strip cs with
  | '+' :: rest => (py_digits rest).map Int.ofNat
  | '-' :: rest => (py_digits rest).map (fun n => -(Int.ofNat n))
  | stripped => (py_digits stripped).map Int.ofNat

/-- Python's `int()` on a string value. -/
def py_int (s : String) : Option Int :=
  py_int_chars s.data

/-- Lexicographic `<` on code points: Python's `str` comparison, and
also SQLite's default (`BINARY`) collation of the ASCII `TEXT` values
this code stores. -/
def py_str_lt : List Char → List Char → Bool
  | [], [] => false
  | [], _ :: _ => true
  | _ :: _, [] => false
  | a :: as, b :: bs => if a == b then py_str_lt as bs else decide (a < b)

/-- Lexicographic `<=` on code points (see `py_str_lt`). -/
def py_str_le : List Char → List Char → Bool
  | [], _ => true
  | _ :: _, [] => false
  | a :: as, b :: bs => if a == b then py_str_le as bs else decide (a < b)

/-- `validate_time_format` of `app/utils/service_response.py` as a
predicate: split on `':'`, require exactly two numeric fields with
`0 <= hour <= 23` and `0 <= minute <= 59`.  (All of its failure modes —
empty string, wrong field count, `ValueError`, out-of-range — raise with
the same `INVALID_TIME_FORMAT` code, so one boolean is faithful.) -/
def validate_time_format_ok (s : String) : Bool :=
  match py_split ':' s.data with
  | [hstr, mstr] =>
    match py_int_chars hstr, py_int_chars mstr with
    | some h, some m => decide (0 ≤ h ∧ h ≤ 23 ∧ 0 ≤ m ∧ m ≤ 59)
    | _, _ => false
  | _ => false

/-- The `valid_days` list of `ScheduleService.save_schedule`. -/
def valid_days : List String :=
  ["mon", "tue", "wed", "thu", "fri", "sat", "sun"]

/-- The outcome of the service-layer save: the response's `success`
flag, its `error_code` (absent on success), and the resulting store. -/
structure SaveOutcome where
  success : Bool
  error_code : Option String
  db : DbState

/-- `ScheduleService.save_schedule`: required-parameter check (a `None`
or empty value, or an empty day list, raises `MISSING_PARAMETER`), time
format validation, the lexicographic `start_time >= end_time` rejection
(`INVALID_DATE_RANGE`), the invalid-day and empty-day-list checks
(`VALIDATION_ERROR`), and only then the model-layer
`Schedule.save_schedule`; `dbOk` models whether that database write
succeeds (on failure the transaction is rolled back and the response is
`DATABASE_ERROR`). -/
def ScheduleService.save_schedule (db : DbState)
    (device_id start_time end_time : Option String) (days : List String)
    (enabled : Bool) (user_id : Option Nat) (dbOk : Bool) : SaveOutcome :=
  match device_id, start_time, end_time with
  | some d, some st, some et =>
    if d == "" || st == "" || et == "" || days.isEmpty then
      ⟨false, some "MISSING_PARAMETER", db⟩
    else if !validate_time_format_ok st then
      ⟨false, some "INVALID_TIME_FORMAT", db⟩
    else if !validate_time_format_ok et then
      ⟨false, some "INVALID_TIME_FORMAT", db⟩
    else if !py_str_lt st.data et.data then
      ⟨false, some "INVALID_DATE_RANGE", db⟩
    else if !(days.filter (fun day => !valid_days.contains day)).isEmpty then
      ⟨false, some "VALIDATION_ERROR", db⟩
    else if days.length = 0 then
      ⟨false, some "VALIDATION_ERROR", db⟩
    else if dbOk then
      ⟨true, none, Schedule.save_schedule db d st et days enabled user_id⟩
    else
      ⟨false, some "DATABASE_ERROR", db⟩
  | _, _, _ => ⟨false, some "MISSING_PARAMETER", db⟩

/-- The error codes of the validation family (`MISSING_PARAMETER` is
raised by `validate_required_params`, the rest by the in-line checks);
`DATABASE_ERROR` is the store-failure code. -/
def validation_codes : List String :=
  ["MISSING_PARAMETER", "INVALID_TIME_FORMAT", "INVALID_DATE_RANGE",
   "VALIDATION_ERROR"]

/-- An input passes all of the service's validation steps. -/
def save_input_valid (device_id start_time end_time : Option String)
    (days : List String) : Bool :=
  match device_id, start_time, end_time with
  | some d, some st, some et =>
    !(d == "" || st == "" || et == "" || days.isEmpty) &&
    validate_time_format_ok st && validate_time_format_ok et &&
    py_str_lt st.data et.data &&
    (days.filter (fun day => !valid_days.contains day)).isEmpty
  | _, _, _ => false

/-- C8: every save request that fails validation is rejected with an
error code from the validation family — never the store/database code —
and the store is left exactly as it was. -/
theorem C8_validation_no_mutation (db : DbState)
    (device_id start_time end_time : Option String) (days : List String)
    (enabled : Bool) (user_id : Option Nat) (dbOk : Bool)
    (h : save_input_valid device_id start_time end_time days = false) :
    (ScheduleService.save_schedule db device_id start_time end_time days
        enabled user_id dbOk).db = db ∧
    (ScheduleService.save_schedule db device_id start_time end_time days
        enabled user_id dbOk).success = false ∧
    ∃ c, (ScheduleService.save_schedule db device_id start_time end_time days
        enabled user_id dbOk).error_code = some c ∧
      c ∈ validation_codes ∧ c ≠ "DATABASE_ERROR" := by
  rcases device_id with _ | d
  · exact ⟨rfl, rfl, "MISSING_PARAMETER", rfl, by decide, by decide⟩
  rcases start_time with _ | st
  · exact ⟨rfl, rfl, "MISSING_PARAMETER", rfl, by decide, by decide⟩
  rcases end_time with _ | et
  · exact ⟨rfl, rfl, "MISSING_PARAMETER", rfl, by decide, by decide⟩
  rw [save_input_valid] at h
  simp only [ScheduleService.save_schedule]
  by_cases h1 : (d == "" || st == "" || et == "" || days.isEmpty) = true
  · rw [if_pos h1]
    exact ⟨rfl, rfl, "MISSING_PARAMETER", rfl, by decide, by decide⟩
  rw [if_neg h1]
  rw [Bool.not_eq_true] at h1
  by_cases h2 : validate_time_format_ok st = true
  case neg =>
    rw [Bool.not_eq_true] at h2
    rw [if_pos (by rw [h2]; rfl)]
    exact ⟨rfl, rfl, "INVALID_TIME_FORMAT", rfl, by decide, by decide⟩
  rw [if_neg (by rw [h2]; decide)]
  by_cases h3 : validate_time_format_ok et = true
  case neg =>
    rw [Bool.not_eq_true] at h3
    rw [if_pos (by rw [h3]; rfl)]
    exact ⟨rfl, rfl, "INVALID_TIME_FORMAT", rfl, by decide, by decide⟩
  rw [if_neg (by rw [h3]; decide)]
  by_cases h4 : py_str_lt st.data et.data = true
  case neg =>
    rw [Bool.not_eq_true] at h4
    rw [if_pos (by rw [h4]; rfl)]
    exact ⟨rfl, rfl, "INVALID_DATE_RANGE", rfl, by decide, by decide⟩
  rw [if_neg (by rw [h4]; decide)]
  by_cases h5 :
      (days.filter (fun day => !valid_days.contains day)).isEmpty = true
  case neg =>
    rw [Bool.not_eq_true] at h5
    rw [if_pos (by rw [h5]; rfl)]
    exact ⟨rfl, rfl, "VALIDATION_ERROR", rfl, by decide, by decide⟩
  exfalso
  rw [h1, h2, h3, h4, h5] at h
  simp at h

theorem C8_validation_no_mutation_witness :
    (ScheduleService.save_schedule
        { schedules := [], device_schedules := [], schedule_days := [],
          relay_activations := [], nextScheduleId := 1 }
        (some "RelayLight") (some "17:00") (some "08:00") ["mon"]
        true none true).db =
      { schedules := [], device_schedules := [], schedule_days := [],
        relay_activations := [], nextScheduleId := 1 } ∧
    (ScheduleService.save_schedule
        { schedules := [], device_schedules := [], schedule_days := [],
          relay_activations := [], nextScheduleId := 1 }
        (some "RelayLight") (some "17:00") (some "08:00") ["mon"]
        true none true).success = false ∧
    ∃ c, (ScheduleService.save_schedule
        { schedules := [], device_schedules := [], schedule_days := [],
          relay_activations := [], nextScheduleId := 1 }
        (some "RelayLight") (some "17:00") (some "08:00") ["mon"]
        true none true).error_code = some c ∧
      c ∈ validation_codes ∧ c ≠ "DATABASE_ERROR" :=
  C8_validation_no_mutation
    { schedules := [], device_schedules := [], schedule_days := [],
      relay_activations := [], nextScheduleId := 1 }
    (some "RelayLight") (some "17:00") (some "08:00") ["mon"]
    true none true (by decide)

/-! ## Claim C9: the activation log query
(`RelayActivation.get_activations`) -/

theorem py_str_le_total (a b : List Char) :
    py_str_le a b = true ∨ py_str_le b a = true := by
  induction a generalizing b with
  | nil => left; rfl
  | cons c as ih =>
    cases b with
    | nil => right; rfl
    | cons d bs =>
      by_cases hcd : c = d
      · subst hcd
        have hself : (c == c) = true := beq_self_eq_true c
        simp only [py_str_le, hself, if_true]
        exact ih bs
      · have h1 : (c == d) = false := by simpa using hcd
        have h2 : (d == c) = false := by simpa using (Ne.symm hcd)
        simp only [py_str_le, h1, h2, Bool.false_eq_true, if_false,
          decide_eq_true_eq]
        exact lt_or_gt_of_ne hcd

theorem py_str_le_trans (a b c : List Char) (h1 : py_str_le a b = true)
    (h2 : py_str_le b c = true) : py_str_le a c = true := by
  induction a generalizing b c with
  | nil => rfl
  | cons x as ih =>
    cases b with
    | nil => simp [py_str_le] at h1
    | cons y bs =>
      cases c with
      | nil => simp [py_str_le] at h2
      | cons z cs =>
        by_cases hxy : x = y
        · subst hxy
          rw [py_str_le, if_pos (beq_self_eq_true x)] at h1
          by_cases hxz : x = z
          · subst hxz
            rw [py_str_le, if_pos (beq_self_eq_true x)] at h2 ⊢
            exact ih bs cs h1 h2
          · rw [py_str_le, if_neg (by simpa using hxz)] at h2 ⊢
            exact h2
        · rw [py_str_le, if_neg (by simpa using hxy),
            decide_eq_true_eq] at h1
          by_cases hyz : y = z
          · subst hyz
            rw [py_str_le, if_neg (by simpa using hxy), decide_eq_true_eq]
            exact h1
          · rw [py_str_le, if_neg (by simpa using hyz),
              decide_eq_true_eq] at h2
            have hlt : x < z := lt_trans h1 h2
            rw [py_str_le, if_neg (by simpa using (ne_of_lt hlt)),
              decide_eq_true_eq]
            exact hlt

/-- `RelayActivation.get_activations`: the `WHERE` clauses
(`timestamp >= ?`, `timestamp <= ?`, `device_id = ?`) are appended only
for truthy parameters (absent or `''` adds no filter), then
`ORDER BY timestamp DESC LIMIT ?`.  Timestamps are `TEXT` columns under
SQLite's default collation, i.e. compared with `py_str_le`.  `limit` is
the caller's Python `int` bound straight into `LIMIT ?`, and SQLite
treats a negative `LIMIT` as "no limit": every sorted row is returned
then. -/
def RelayActivation.get_activations (rows : List ActivationRow)
    (start_time end_time device_id : Option String) (limit : Int) :
    List ActivationRow :=
  let r1 := match start_time with
    | some s =>
      if s == "" then rows
      else rows.filter (fun r => py_str_le s.data r.timestamp.data)
    | none => rows
  let r2 := match end_time with
    | some e =>
      if e == "" then r1
      else r1.filter (fun r => py_str_le r.timestamp.data e.data)
    | none => r1
  let r3 := match device_id with
    | some d =>
      if d == "" then r2
      else r2.filter (fun r => r.device_id == d)
    | none => r2
  let sorted := r3.insertionSort
    (fun a b => py_str_le b.timestamp.data a.timestamp.data = true)
  if limit < 0 then sorted else sorted.take limit.toNat

/-- C9 counterexample, refuting both universal parts of the claim.
With two logged events sharing one timestamp the returned sequence is
not strictly descending (the `ORDER BY timestamp DESC` sort keeps ties
side by side); and for the limit value `-1` a single stored row is still
returned (SQLite's negative `LIMIT` means "no limit"), so the sequence
has more than `limit` rows. -/
theorem C9_counterexample :
    ¬ List.Pairwise
      (fun a b : ActivationRow =>
        py_str_lt b.timestamp.data a.timestamp.data = true)
      (RelayActivation.get_activations
        [⟨"RelayLight", "on", none, none, true, true, "2025-01-01 10:00:00"⟩,
         ⟨"RelayLight", "off", none, none, true, true, "2025-01-01 10:00:00"⟩]
        none none none 10) ∧
    ¬ (((RelayActivation.get_activations
        [⟨"RelayLight", "on", none, none, true, true, "2025-01-01 10:00:00"⟩]
        none none none (-1)).length : Int) ≤ -1) := by
  constructor
  · decide
  · decide

/-- C9 (amended): for every combination of optional filters the
returned sequence is ordered by timestamp descending but only weakly so
— ties between equal timestamps are allowed, so it is non-increasing
rather than strictly descending — and it has at most `limit` rows only
for nonnegative `limit`: a negative limit value reaches SQLite's
"negative `LIMIT` means no limit" behaviour and returns every matching
row. -/
theorem C9_limit_and_order (rows : List ActivationRow)
    (start_time end_time device_id : Option String) (limit : Int) :
    (0 ≤ limit →
      (RelayActivation.get_activations rows start_time end_time device_id
        limit).length ≤ limit.toNat) ∧
    List.Pairwise
      (fun a b : ActivationRow =>
        py_str_le b.timestamp.data a.timestamp.data = true)
      (RelayActivation.get_activations rows start_time end_time device_id
        limit) := by
  haveI htot : IsTotal ActivationRow
      (fun a b => py_str_le b.timestamp.data a.timestamp.data = true) :=
    ⟨fun a b => py_str_le_total b.timestamp.data a.timestamp.data⟩
  haveI htr : IsTrans ActivationRow
      (fun a b => py_str_le b.timestamp.data a.timestamp.data = true) :=
    ⟨fun a b c hab hbc =>
      py_str_le_trans c.timestamp.data b.timestamp.data a.timestamp.data
        hbc hab⟩
  constructor
  · intro h
    simp only [RelayActivation.get_activations]
    rw [if_neg (not_lt.mpr h)]
    exact List.length_take_le _ _
  · simp only [RelayActivation.get_activations]
    by_cases h : limit < 0
    · rw [if_pos h]
      exact List.sorted_insertionSort _ _
    · rw [if_neg h]
      exact List.Pairwise.sublist (List.take_sublist _ _)
        (List.sorted_insertionSort _ _)

/-- A concrete row list used to witness `C9_limit_and_order`. -/
def c9_rows : List ActivationRow :=
  [⟨"RelayLight", "on", none, some "schedule-daemon", true, true,
      "2025-01-02 08:00:00"⟩,
   ⟨"RelayLight", "off", some 1, some "admin", false, true,
      "2025-01-01 17:00:00"⟩]

theorem C9_limit_and_order_witness :
    (RelayActivation.get_activations c9_rows none none none
        2000).length ≤ (2000 : Int).toNat ∧
    List.Pairwise
      (fun a b : ActivationRow =>
        py_str_le b.timestamp.data a.timestamp.data = true)
      (RelayActivation.get_activations c9_rows none none none 2000) :=
  ⟨(C9_limit_and_order c9_rows none none none 2000).1 (by decide),
   (C9_limit_and_order c9_rows none none none 2000).2⟩


/-! ## The device driver (`app/services/revpi_service.py`) -/

/-- The outcome of one `subprocess.run` invocation of `piTest`:
completion with a return code, stdout and stderr, or a
`subprocess.TimeoutExpired`. -/
inductive PiTestRun where
  | completed (returncode : Int) (stdout : String) (stderr : String)
  | timedOut
deriving DecidableEq, Repr

/-- The `DeviceStatus` enumeration of `app/services/base_service.py`. -/
inductive DeviceStatus where
  | ON
  | OFF
  | ERROR
  | UNKNOWN
deriving DecidableEq, Repr

/-- A status payload: the status value, the `error` message when the
returned dict carries an `error` key, and the `simulated` flag when it
carries a `simulated` key (the raw `value` key is not modelled). -/
structure StatusResult where
  status : DeviceStatus
  error : Option String
  simulated : Option Bool
deriving DecidableEq, Repr

/-- The environment of one `get_device_status` call: whether
`which piTest` succeeds, the single-shot run's outcome, the behaviour of
the process-control fallback (`cont_exception` carries the message of a
raised exception, `cont_line` the line read from the long-running
process), and the `random.choice([0, 1])` draw used in simulated
mode. -/
structure DeviceEnv where
  pitest_available : Bool
  single_shot : PiTestRun
  cont_exception : Option String
  cont_line : String
  sim_value : Nat
deriving DecidableEq, Repr

/-- `RevPiService._simulate_device_status`: the random draw with the
driver polarity `0 = ON`, flagged `simulated`. -/
def simulate_device_status (env : DeviceEnv) : StatusResult :=
  ⟨if env.sim_value = 0 then .ON else .OFF, none, some true⟩

/-- `RevPiService._get_status_with_process_control`: an exception maps
to `ERROR` carrying its message; an empty first line (`readline`
returned `''`) maps to `ERROR` with no message; a non-numeric line
(`ValueError` in `int(line.strip())`) maps to `UNKNOWN`; otherwise the
polarity `0 = ON` applies. -/
def get_status_with_process_control (env : DeviceEnv) : StatusResult :=
  match env.cont_exception with
  | some m => ⟨.ERROR, some m, none⟩
  | none =>
    if env.cont_line == "" then ⟨.ERROR, none, some false⟩
    else
      match py_int env.cont_line with
      | some v => ⟨if v = 0 then .ON else .OFF, none, some false⟩
      | none => ⟨.UNKNOWN, none, some false⟩

/-- The first line of the stripped stdout
(`output.split('\n')[0] if output else ''`). -/
def first_line_of (stdout : String) : List Char :=
  let output := py_strip stdout.data
  if output.isEmpty then []
  else (py_split '\n' output).headD []

/-- The body of `get_device_status` when the single-shot command exits
with return code `0`: `int(first_line.split(":")[1])` read with the
driver polarity `0 = ON`.  A missing colon field raises `IndexError`,
which only the outer `except Exception` catches, giving `ERROR` with the
exception text; a non-numeric field raises `ValueError`, caught locally
and mapped to `UNKNOWN`. -/
def single_shot_parse (stdout : String) : StatusResult :=
  match (py_split ':' (first_line_of stdout)).get? 1 with
  | none => ⟨.ERROR, some "IndexError: list index out of range", none⟩
  | some seg =>
    match py_int_chars seg with
    | some v => ⟨if v = 0 then .ON else .OFF, none, some false⟩
    | none => ⟨.UNKNOWN, none, some false⟩

/-- `RevPiService.get_device_status` (`validDevice` abbreviates
membership of the device map). -/
def get_device_status (validDevice : Bool) (env : DeviceEnv) :
    StatusResult :=
  if !validDevice then ⟨.ERROR, some "Invalid device ID", none⟩
  else if !env.pitest_available then simulate_device_status env
  else
    match env.single_shot with
    | .timedOut => get_status_with_process_control env
    | .completed rc out _ =>
      if rc = 0 then single_shot_parse out
      else get_status_with_process_control env

/-! ## Claim C6: failure mapping of status reads -/

/-- C6 counterexample: with the driver available and the single-shot
command succeeding but printing the unparsable line `"Bit value: x"`,
`get_device_status` returns `UNKNOWN` with no message — not `ERROR`
with a message as the claim states. -/
theorem C6_counterexample :
    get_device_status true
      { pitest_available := true,
        single_shot := PiTestRun.completed 0 "Bit value: x" "",
        cont_exception := none, cont_line := "", sim_value := 0 } =
      ⟨DeviceStatus.UNKNOWN, none, some false⟩ := by decide

/-- C6 (amended): a timeout or a non-zero exit of the single-shot
invocation does not return `ERROR` directly — it falls back to the
process-control read.  That read returns `ERROR` with a message only on
an exception, `ERROR` without a message on empty output, and `UNKNOWN`
on unparsable output; likewise the single-shot path maps an unparsable
colon-field to `UNKNOWN` with no message rather than `ERROR`. -/
theorem C6_failure_mapping (env : DeviceEnv)
    (h : env.pitest_available = true) :
    (env.single_shot = PiTestRun.timedOut →
      get_device_status true env = get_status_with_process_control env) ∧
    (∀ rc out err, env.single_shot = PiTestRun.completed rc out err →
      rc ≠ 0 →
      get_device_status true env = get_status_with_process_control env) ∧
    (∀ out err, env.single_shot = PiTestRun.completed 0 out err →
      get_device_status true env = single_shot_parse out) ∧
    (∀ out seg, (py_split ':' (first_line_of out)).get? 1 = some seg →
      py_int_chars seg = none →
      single_shot_parse out = ⟨DeviceStatus.UNKNOWN, none, some false⟩) ∧
    (∀ m, env.cont_exception = some m →
      get_status_with_process_control env =
        ⟨DeviceStatus.ERROR, some m, none⟩) ∧
    (env.cont_exception = none → env.cont_line = "" →
      get_status_with_process_control env =
        ⟨DeviceStatus.ERROR, none, some false⟩) ∧
    (env.cont_exception = none → env.cont_line ≠ "" →
      py_int env.cont_line = none →
      get_status_with_process_control env =
        ⟨DeviceStatus.UNKNOWN, none, some false⟩) := by
  refine ⟨?_, ?_, ?_, ?_, ?_, ?_, ?_⟩
  · intro hts
    simp [get_device_status, h, hts]
  · intro rc out err hc hrc
    simp [get_device_status, h, hc, hrc]
  · intro out err hc
    simp [get_device_status, h, hc]
  · intro out seg hseg hpi
    simp only [single_shot_parse]
    rw [hseg]
    simp [hpi]
  · intro m hm
    simp [get_status_with_process_control, hm]
  · intro h1 h2
    simp [get_status_with_process_control, h1, h2]
  · intro h1 h2 h3
    have h2b : (env.cont_line == "") = false := by simpa using h2
    rw [py_int] at h3
    simp [get_status_with_process_control, h1, h2b, py_int, h3]

/-- Concrete environment used to witness `C6_failure_mapping`: the
single shot exits non-zero and the fallback reads an unparsable line. -/
def c6_env : DeviceEnv :=
  { pitest_available := true,
    single_shot := PiTestRun.completed 1 "" "read error",
    cont_exception := none, cont_line := "garbage", sim_value := 0 }

theorem C6_failure_mapping_witness :
    get_device_status true c6_env = get_status_with_process_control c6_env ∧
    get_status_with_process_control c6_env =
      ⟨DeviceStatus.UNKNOWN, none, some false⟩ :=
  ⟨(C6_failure_mapping c6_env (by decide)).2.1 1 "" "read error" rfl
      (by decide),
   (C6_failure_mapping c6_env (by decide)).2.2.2.2.2.2 rfl (by decide)
      (by decide)⟩

/-! ## Claim C10: toggling with the driver unavailable -/

/-- The `DeviceAction` enumeration of `app/services/base_service.py`
and its string value. -/
inductive DeviceAction where
  | ON
  | OFF
deriving DecidableEq, Repr

def DeviceAction.value : DeviceAction → String
  | .ON => "on"
  | .OFF => "off"

/-- A toggle result: `success`, `message`, and the `simulated` key when
present (the `output` key is not modelled). -/
structure ToggleResult where
  success : Bool
  message : String
  simulated : Option Bool
deriving DecidableEq, Repr

/-- The environment of one `toggle_device` call. -/
structure ToggleEnv where
  pitest_available : Bool
  write_run : PiTestRun
deriving DecidableEq, Repr

/-- `RevPiService.toggle_device`: unknown device ids fail first; with
`piTest` unresolvable the call degrades to simulated success; otherwise
`piTest -w <id>,<0|1>` runs, with return code `0` reporting success. -/
def RevPiService.toggle_device (device_map : List String)
    (device_id : String) (env : ToggleEnv) (action : DeviceAction) :
    ToggleResult :=
  if !(device_map.contains device_id) then
    ⟨false, "Invalid device ID", none⟩
  else if !env.pitest_available then
    ⟨true,
      device_id ++ " turned " ++ action.value ++ " successfully (simulated)",
      some true⟩
  else
    match env.write_run with
    | .completed rc _ err =>
      if rc = 0 then
        ⟨true, device_id ++ " turned " ++ action.value ++ " successfully",
          some false⟩
      else
        ⟨false,
          "Command failed with return code " ++ toString rc ++ ": " ++ err,
          none⟩
    | .timedOut => ⟨false, "Command timed out after 10 seconds", none⟩

/-- C10 counterexample: with the driver unavailable but a `device_id`
outside the device map, `toggle_device` returns `success = false` with
no `simulated` key — the invalid-device guard runs before the
availability check, so the claim's "for every device_id" is false. -/
theorem C10_counterexample :
    (RevPiService.toggle_device ["RelayLight"] "NoSuchDevice"
        { pitest_available := false, write_run := PiTestRun.timedOut }
        DeviceAction.ON).success = false ∧
    (RevPiService.toggle_device ["RelayLight"] "NoSuchDevice"
        { pitest_available := false, write_run := PiTestRun.timedOut }
        DeviceAction.ON).simulated = none := by decide

/-- C10 (amended): whenever the control binary is not resolvable, for
every device id **in the device map** and every action, `toggle_device`
returns `success = true` and `simulated = true`. -/
theorem C10_simulated_success (device_map : List String)
    (device_id : String) (env : ToggleEnv) (action : DeviceAction)
    (hdev : device_map.contains device_id = true)
    (hav : env.pitest_available = false) :
    (RevPiService.toggle_device device_map device_id env action).success =
      true ∧
    (RevPiService.toggle_device device_map device_id env action).simulated =
      some true := by
  have hmem : device_id ∈ device_map := by simpa using hdev
  simp [RevPiService.toggle_device, hmem, hav]

theorem C10_simulated_success_witness :
    (RevPiService.toggle_device ["RelayLight"] "RelayLight"
        { pitest_available := false, write_run := PiTestRun.timedOut }
        DeviceAction.OFF).success = true ∧
    (RevPiService.toggle_device ["RelayLight"] "RelayLight"
        { pitest_available := false, write_run := PiTestRun.timedOut }
        DeviceAction.OFF).simulated = some true :=
  C10_simulated_success ["RelayLight"] "RelayLight"
    { pitest_available := false, write_run := PiTestRun.timedOut }
    DeviceAction.OFF (by decide) (by decide)


end BootMonitoring
